import Mathlib

/-!
Verification of `src/main.py` (cornell_vpn_cli), a CLI wrapper that drives
the Cisco Secure Client `vpn` binary through its interactive prompt.

The Python code is shallowly embedded: every subprocess invocation is
abstracted by its observable outcome (captured text, non-zero exit, or a
spawn failure), the filesystem by boolean predicates on paths, and the
process environment by a partial map from variable names to values.  The
control flow of each Python function is translated match-for-match; a
`sys.exit(n)` becomes an explicit `exited n` outcome and an uncaught Python
exception becomes `raised` (CPython terminates with status 1 in that case).
-/

set_option linter.unusedVariables false

namespace VpnCli

/-- Outcome of one `subprocess` invocation, as observed by the wrapper:
the child ran and exited 0 with some captured text, or it exited non-zero
(`subprocess.CalledProcessError`), or spawning it failed outright
(an `OSError` such as `FileNotFoundError`, e.g. the executable path does
not exist at spawn time). -/
inductive SubprocOutcome where
  | ok (output : String)
  | exitNonzero (output : String)
  | spawnError
deriving DecidableEq

/-- Python `str.strip()` on the underlying character list: drop whitespace
from the left, then (via `reverse`) from the right. -/
def pyStripL (s : List Char) : List Char :=
  ((s.dropWhile Char.isWhitespace).reverse.dropWhile Char.isWhitespace).reverse

/-- Python `str.strip()` on strings. -/
def pyStrip (s : String) : String := ⟨pyStripL s.data⟩

/-- Python's `pat in s` substring test for strings. -/
def pyContains (pat s : String) : Bool := decide (pat.data <:+: s.data)

/-- `run(cmd)` (main.py lines 60-64): `subprocess.check_output(...).strip()`
with `except subprocess.CalledProcessError: return ""`.  Only a non-zero
exit is caught; a spawn failure (`OSError`) propagates, modelled by
`Except.error ()`. -/
def run (o : SubprocOutcome) : Except Unit String :=
  match o with
  | .ok out => .ok (pyStrip out)
  | .exitNonzero _ => .ok ""
  | .spawnError => .error ()

/-- `vpn_connected(vpn_exec)` (main.py lines 89-90):
`"Connected" in run(f"{vpn_exec} status")`.  The `<exec> status` invocation
is abstracted by its outcome `o`; an exception from `run` propagates. -/
def vpn_connected (o : SubprocOutcome) : Except Unit Bool :=
  match run o with
  | .ok s => .ok (pyContains "Connected" s)
  | .error e => .error e

/-! ### Substring containment is invariant under `strip` -/

/-- A pattern occurs in a reversed list iff its reversal occurs in the list. -/
lemma pat_rev_iff (p l : List Char) : p <:+: l.reverse ↔ p.reverse <:+: l := by
  constructor
  · rintro ⟨s, t, h⟩
    refine ⟨t.reverse, s.reverse, ?_⟩
    have h' := congrArg List.reverse h
    simpa [List.reverse_append, List.append_assoc] using h'
  · rintro ⟨s, t, h⟩
    refine ⟨t.reverse, s.reverse, ?_⟩
    have h' := congrArg List.reverse h
    simpa [List.reverse_append, List.append_assoc] using h'

/-- `dropWhile` only removes a leading block. -/
lemma dropWhile_drops_front (q : Char → Bool) (l : List Char) :
    ∃ s, s ++ l.dropWhile q = l := by
  induction l with
  | nil => exact ⟨[], rfl⟩
  | cons a l ih =>
    by_cases h : q a
    · obtain ⟨s, hs⟩ := ih
      exact ⟨a :: s, by simp [List.dropWhile_cons, h, hs]⟩
    · exact ⟨[], by simp [List.dropWhile_cons, h]⟩

/-- A nonempty pattern none of whose characters satisfies `q` occurs in
`l.dropWhile q` iff it occurs in `l`. -/
lemma pat_dropWhile_iff (q : Char → Bool) (p l : List Char) (hp : p ≠ [])
    (hq : ∀ c ∈ p, q c = false) : p <:+: l.dropWhile q ↔ p <:+: l := by
  constructor
  · rintro ⟨s, t, h⟩
    obtain ⟨s0, hs0⟩ := dropWhile_drops_front q l
    refine ⟨s0 ++ s, t, ?_⟩
    rw [← hs0, ← h]
    simp [List.append_assoc]
  · intro h
    induction l with
    | nil => simpa using h
    | cons a l ih =>
      by_cases ha : q a
      · rw [List.dropWhile_cons, if_pos ha]
        refine ih ?_
        obtain ⟨s, t, hst⟩ := h
        cases s with
        | nil =>
          simp only [List.nil_append] at hst
          cases p with
          | nil => exact absurd rfl hp
          | cons c p' =>
            simp only [List.cons_append, List.cons.injEq] at hst
            have hc : q c = false := hq c (by simp)
            rw [hst.1] at hc
            rw [hc] at ha
            exact absurd ha (by simp)
        | cons b s' =>
          simp only [List.cons_append, List.cons.injEq] at hst
          exact ⟨s', t, hst.2⟩
      · rw [List.dropWhile_cons, if_neg ha]
        exact h

/-- A nonempty all-non-whitespace pattern occurs in `pyStripL l` iff it
occurs in `l`. -/
lemma pat_pyStripL_iff (p l : List Char) (hp : p ≠ [])
    (hq : ∀ c ∈ p, Char.isWhitespace c = false) :
    p <:+: pyStripL l ↔ p <:+: l := by
  unfold pyStripL
  rw [pat_rev_iff,
    pat_dropWhile_iff Char.isWhitespace p.reverse _
      (by simpa using hp)
      (by intro c hc; exact hq c (List.mem_reverse.mp hc)),
    pat_rev_iff, List.reverse_reverse,
    pat_dropWhile_iff Char.isWhitespace p l hp hq]

/-- `"Connected" in s.strip()` agrees with `"Connected" in s`: stripping
only removes leading and trailing whitespace and no character of
`"Connected"` is whitespace. -/
lemma pyContains_pyStrip (s : String) :
    pyContains "Connected" (pyStrip s) = pyContains "Connected" s := by
  unfold pyContains pyStrip
  rw [decide_eq_decide]
  exact pat_pyStripL_iff _ _ (by decide) (by decide)

/-! ### Executable locator -/

/-- The filesystem and PATH as the wrapper observes them: `os.path.exists`,
`os.access(·, os.X_OK)` and `shutil.which`. -/
structure FS where
  pathExists : String → Bool
  isExecutable : String → Bool
  whichLookup : String → Option String

/-- The platform-specific candidate lists of `find_vpn_exec`
(main.py lines 17-43), keyed on `platform.system()`. -/
def candidates (osType : String) : List String :=
  if osType = "Darwin" then
    ["/opt/cisco/secureclient/bin/vpn",
     "/Applications/Cisco/Cisco Secure Client.app/Contents/MacOS/vpn",
     "/Applications/Cisco AnyConnect Secure Mobility Client.app/Contents/MacOS/vpn"]
  else if osType = "Linux" then
    ["/opt/cisco/secureclient/bin/vpn",
     "/opt/cisco/anyconnect/bin/vpn",
     "/usr/local/bin/vpn",
     "/usr/bin/vpn"]
  else if osType = "Windows" then
    ["C:\\Program Files (x86)\\Cisco\\Cisco Secure Client\\vpncli.exe",
     "C:\\Program Files (x86)\\Cisco\\Cisco AnyConnect Secure Mobility Client\\vpncli.exe",
     "C:\\Program Files\\Cisco\\Cisco Secure Client\\vpncli.exe",
     "C:\\Program Files\\Cisco\\Cisco AnyConnect Secure Mobility Client\\vpncli.exe"]
  else []

/-- How locating the executable can fail.  `fileNotFound` is the
`FileNotFoundError` raised at main.py line 55; `nameError` is the
`NameError` raised when `shutil.which` is evaluated with `shutil` unbound. -/
inductive LocErr where
  | fileNotFound
  | nameError
deriving DecidableEq

/-- The per-candidate test of main.py line 47:
`os.path.exists(path) and os.access(path, os.X_OK)`. -/
def goodExec (fs : FS) (p : String) : Bool := fs.pathExists p && fs.isExecutable p

/-- `find_vpn_exec()` (main.py lines 12-57): return the first candidate that
exists and is executable.  NOTE the fallback: main.py never imports `shutil`
(its imports are argparse, platform, subprocess, getpass, os, shlex, getpass,
sys), so when the candidate loop falls through, evaluating
`shutil.which("vpn")` at line 51 raises `NameError` before any PATH search;
the PATH lookup and the `raise FileNotFoundError` at line 55 are dead code,
and `fs.whichLookup` is never consulted. -/
def find_vpn_exec (fs : FS) (osType : String) : Except LocErr String :=
  match (candidates osType).find? (goodExec fs) with
  | some p => .ok p
  | none => .error .nameError

/-- `find?` returns exactly the first element of the list satisfying the
predicate. -/
lemma find?_first_iff (g : String → Bool) (l : List String) (p : String) :
    l.find? g = some p ↔
      ∃ pre post, l = pre ++ p :: post ∧ g p = true ∧ ∀ q ∈ pre, g q = false := by
  induction l with
  | nil => simp
  | cons a l ih =>
    by_cases hg : g a
    · rw [List.find?_cons_of_pos _ hg]
      constructor
      · rintro h
        rw [Option.some.injEq] at h
        subst h
        exact ⟨[], l, rfl, hg, by simp⟩
      · rintro ⟨pre, post, hl, hp, hpre⟩
        cases pre with
        | nil =>
          simp only [List.nil_append, List.cons.injEq] at hl
          rw [hl.1]
        | cons b pre' =>
          simp only [List.cons_append, List.cons.injEq] at hl
          have hb := hpre b (by simp)
          rw [← hl.1] at hb
          rw [hb] at hg
          exact absurd hg (by simp)
    · rw [List.find?_cons_of_neg _ hg, ih]
      constructor
      · rintro ⟨pre, post, hl, hp, hpre⟩
        refine ⟨a :: pre, post, by simp [hl], hp, ?_⟩
        intro q hq
        rcases List.mem_cons.mp hq with hq | hq
        · rw [hq]
          simpa using hg
        · exact hpre q hq
      · rintro ⟨pre, post, hl, hp, hpre⟩
        cases pre with
        | nil =>
          simp only [List.nil_append, List.cons.injEq] at hl
          rw [← hl.1] at hp
          exact absurd hp hg
        | cons b pre' =>
          simp only [List.cons_append, List.cons.injEq] at hl
          exact ⟨pre', post, hl.2, hp, fun q hq => hpre q (by simp [hq])⟩

/-! ### Session driver -/

/-- The environment a `connect`/`disconnect` call interacts with: the
outcome of the precondition status probe, the outcome of the
post-transcript status probe, and what `getpass.getpass` returns. -/
structure SessionWorld where
  status1 : SubprocOutcome
  status2 : SubprocOutcome
  password : String
deriving DecidableEq

/-- One spawned child process: either a `<exec> status` probe or the
interactive session `[vpn_exec, "-s"]` fed the given stdin script. -/
inductive SpawnRec where
  | statusProbe (exec : String)
  | interactive (exec : String) (stdinScript : String)
deriving DecidableEq

/-- How a Python function call ends: a normal return, `sys.exit(code)`, or
an uncaught exception. -/
inductive POutcome where
  | ret (b : Bool)
  | exited (code : Nat)
  | raised
deriving DecidableEq

/-- Observable trace of one `connect_vpn`/`disconnect_vpn` call. -/
structure OpTrace where
  spawns : List SpawnRec
  promptedPassword : Bool
  stderrLines : List String
  outcome : POutcome
deriving DecidableEq

/-- The f-string of main.py line 99:
`f"connect {host}\n{username}\n{password}\n{method}\ny\nexit\n"`. -/
def connectScript (host username password method : String) : String :=
  "connect " ++ host ++ "\n" ++ username ++ "\n" ++ password ++ "\n" ++
    method ++ "\ny\nexit\n"

/-- `connect_vpn(vpn_exec, host, username, method)` (main.py lines 93-107):
refuse if already connected; otherwise prompt for the password, feed the
scripted transcript to `[vpn_exec, "-s"]`, re-probe, and return `True` on
success or `sys.exit(1)` on failure.  An exception from either status probe
propagates. -/
def connect_vpn (vpn_exec host username method : String) (w : SessionWorld) :
    OpTrace :=
  match vpn_connected w.status1 with
  | .error _ => ⟨[.statusProbe vpn_exec], false, [], .raised⟩
  | .ok true =>
      ⟨[.statusProbe vpn_exec], false,
       ["Error: VPN is already connected."], .exited 1⟩
  | .ok false =>
    match vpn_connected w.status2 with
    | .error _ =>
        ⟨[.statusProbe vpn_exec,
          .interactive vpn_exec (connectScript host username w.password method),
          .statusProbe vpn_exec], true, [], .raised⟩
    | .ok true =>
        ⟨[.statusProbe vpn_exec,
          .interactive vpn_exec (connectScript host username w.password method),
          .statusProbe vpn_exec], true, [], .ret true⟩
    | .ok false =>
        ⟨[.statusProbe vpn_exec,
          .interactive vpn_exec (connectScript host username w.password method),
          .statusProbe vpn_exec], true,
         ["Error: VPN connection failed."], .exited 1⟩

/-- The two-line stdin script of main.py line 117. -/
def disconnectScript : String := "disconnect\nexit\n"

/-- `disconnect_vpn(vpn_exec)` (main.py lines 110-123): refuse if not
connected; otherwise feed `disconnect\nexit\n` to `[vpn_exec, "-s"]`,
re-probe, and return `True` iff now disconnected, else `sys.exit(1)`. -/
def disconnect_vpn (vpn_exec : String) (w : SessionWorld) : OpTrace :=
  match vpn_connected w.status1 with
  | .error _ => ⟨[.statusProbe vpn_exec], false, [], .raised⟩
  | .ok false =>
      ⟨[.statusProbe vpn_exec], false,
       ["Error: VPN is not connected."], .exited 1⟩
  | .ok true =>
    match vpn_connected w.status2 with
    | .error _ =>
        ⟨[.statusProbe vpn_exec,
          .interactive vpn_exec disconnectScript,
          .statusProbe vpn_exec], false, [], .raised⟩
    | .ok false =>
        ⟨[.statusProbe vpn_exec,
          .interactive vpn_exec disconnectScript,
          .statusProbe vpn_exec], false, [], .ret true⟩
    | .ok true =>
        ⟨[.statusProbe vpn_exec,
          .interactive vpn_exec disconnectScript,
          .statusProbe vpn_exec], false,
         ["Error: VPN disconnection failed."], .exited 1⟩

/-! ### Command dispatcher -/

/-- The process environment, `os.getenv`. -/
abbrev Env := String → Option String

/-- argparse aborting: a missing required argument makes `parse_args` print
a usage message and raise `SystemExit(2)`. -/
inductive ArgErr where
  | usageExit
deriving DecidableEq

/-- Default for `--method` (main.py line 137):
`os.getenv("VPN_METHOD", "push")` when the flag is omitted. -/
def resolveMethod (env : Env) (cli : Option String) : String :=
  match cli with
  | some m => m
  | none => (env "VPN_METHOD").getD "push"

/-- `--vpn-host` is declared `required=True` (main.py line 135): omitting it
aborts argument parsing.  The environment (`env` is the ambient process
environment) is never consulted; there is no `VPN_HOST` fallback anywhere
in main.py. -/
def resolveVpnHost (env : Env) (cli : Option String) : Except ArgErr String :=
  match cli with
  | some h => .ok h
  | none => .error .usageExit

/-- main.py lines 149-156: `vpn_exec = getattr(args, "vpn_exec", None)`;
`if not vpn_exec:` (both `None` and the empty string are falsy) fall back
to `find_vpn_exec()`.  The environment (`env` is the ambient process
environment) is never consulted; there is no `VPN_EXEC` fallback anywhere
in main.py. -/
def resolveVpnExec (env : Env) (fs : FS) (osType : String)
    (cli : Option String) : Except LocErr String :=
  if cli.getD "" = "" then find_vpn_exec fs osType else .ok (cli.getD "")

/-- The subcommand selected by argparse; `unspecified` models running the
program with no subcommand (`args.command` is `None`, reaching the
`raise ValueError` branch of main.py line 168). -/
inductive Cmd where
  | connect
  | disconnect
  | status
  | unspecified
deriving DecidableEq

/-- How the whole process ends: `main` returned normally (interpreter exits
0), `sys.exit(code)`, or an uncaught exception (CPython exits 1, printing a
traceback). -/
inductive MOutcome where
  | completed
  | exited (code : Nat)
  | raised
deriving DecidableEq

/-- The operating-system exit status of each `MOutcome`. -/
def osExitCode : MOutcome → Nat
  | .completed => 0
  | .exited n => n
  | .raised => 1

/-- Observable trace of one whole program invocation. -/
structure MainTrace where
  spawns : List SpawnRec
  stdoutLines : List String
  stderrLines : List String
  outcome : MOutcome
deriving DecidableEq

/-- Everything the program invocation interacts with. -/
structure World where
  env : Env
  fs : FS
  osType : String
  session : SessionWorld

/-- The `status` branch of main (lines 158-160): probe once and print
`VPN Connected: Yes`/`No`; an exception from the probe propagates. -/
def status_cmd (vpn_exec : String) (o : SubprocOutcome) : MainTrace :=
  match vpn_connected o with
  | .error _ => ⟨[.statusProbe vpn_exec], [], [], .raised⟩
  | .ok b =>
      ⟨[.statusProbe vpn_exec],
       ["VPN Connected: " ++ (if b then "Yes" else "No")], [], .completed⟩

/-- Wrap a session-driver trace with main's final result print
(main.py lines 161-166): `VPN connection {'successful' if success else
'failed'}` resp. the disconnection wording. -/
def liftOp (verb : String) (t : OpTrace) : MainTrace :=
  match t.outcome with
  | .ret b =>
      ⟨t.spawns,
       ["VPN " ++ verb ++ " " ++ (if b then "successful" else "failed")],
       t.stderrLines, .completed⟩
  | .exited n => ⟨t.spawns, [], t.stderrLines, .exited n⟩
  | .raised => ⟨t.spawns, [], t.stderrLines, .raised⟩

/-- `main()` (main.py lines 126-168) after argument parsing: resolve the
executable (catching only `FileNotFoundError`: the one-line message and
`sys.exit(1)` of lines 154-156), then dispatch on the subcommand.  The
`NameError` from the locator's dead fallback is not caught and propagates.
For `connect`, `host` and `username` are the (required) parsed arguments
and `cliMethod` the optional `--method` flag. -/
def main (cmd : Cmd) (cliExec : Option String) (host username : String)
    (cliMethod : Option String) (w : World) : MainTrace :=
  match resolveVpnExec w.env w.fs w.osType cliExec with
  | .error .fileNotFound =>
      ⟨[], [],
       ["Error: Could not locate Cisco Secure Client/AnyConnect executable."],
       .exited 1⟩
  | .error .nameError => ⟨[], [], [], .raised⟩
  | .ok vpn_exec =>
    match cmd with
    | .status => status_cmd vpn_exec w.session.status1
    | .connect =>
        liftOp "connection"
          (connect_vpn vpn_exec host username
            (resolveMethod w.env cliMethod) w.session)
    | .disconnect => liftOp "disconnection" (disconnect_vpn vpn_exec w.session)
    | .unspecified => ⟨[], [], [], .raised⟩

/-! ### Splitting a script into newline-terminated lines -/

/-- Split a character list at every `'\n'`, keeping the (possibly empty)
trailing segment: a string consisting of exactly `n` newline-terminated
lines splits into those `n` lines followed by `[]`. -/
def splitNL : List Char → List (List Char)
  | [] => [[]]
  | c :: rest =>
    if c = '\n' then [] :: splitNL rest
    else
      match splitNL rest with
      | [] => [[c]]
      | l :: ls => (c :: l) :: ls

/-- Splitting peels off a newline-free first line. -/
lemma splitNL_append (l1 r : List Char) (h : ∀ c ∈ l1, c ≠ '\n') :
    splitNL (l1 ++ '\n' :: r) = l1 :: splitNL r := by
  induction l1 with
  | nil => simp [splitNL]
  | cons a l ih =>
    have ha : a ≠ '\n' := h a (by simp)
    have ih' := ih (fun c hc => h c (by simp [hc]))
    simp [splitNL, ha, ih']

/-- `String.append` acts as append on the underlying character lists. -/
lemma string_data_app (s t : String) : (s ++ t).data = s.data ++ t.data := rfl

/-- The connect script, viewed as four newline-free fields followed by the
literal tail `y`, `exit`, splits into exactly those six lines plus the
empty trailing segment. -/
lemma splitNL_six (a b c d : List Char)
    (ha : ∀ x ∈ a, x ≠ '\n') (hb : ∀ x ∈ b, x ≠ '\n')
    (hc : ∀ x ∈ c, x ≠ '\n') (hd : ∀ x ∈ d, x ≠ '\n') :
    splitNL (a ++ '\n' :: (b ++ '\n' :: (c ++ '\n' :: (d ++ '\n' ::
        ('y' :: '\n' :: ('e' :: 'x' :: 'i' :: 't' :: '\n' :: [])))))) =
      [a, b, c, d, ['y'], ['e', 'x', 'i', 't'], []] := by
  rw [splitNL_append _ _ ha, splitNL_append _ _ hb, splitNL_append _ _ hc,
    splitNL_append _ _ hd]
  rfl

/-! ### Claims -/

/-- C1, counterexample: the claim says every subprocess failure — including
a spawn error — is treated as empty output and makes `vpn_connected` return
`false`; in fact `run` catches only `CalledProcessError`, so on a spawn
error `vpn_connected` does not return `false`: the exception propagates. -/
theorem c1_spawn_error_not_false :
    vpn_connected SubprocOutcome.spawnError ≠ Except.ok false ∧
    vpn_connected SubprocOutcome.spawnError = Except.error () :=
  ⟨fun h => Except.noConfusion h, rfl⟩

/-- C1 (amended): for a successfully spawned `<exec> status` subprocess,
`vpn_connected` returns true iff the captured output contains the substring
`"Connected"`; a non-zero exit is treated as producing empty output and
yields false; a spawn error is not caught and propagates as an uncaught
exception. -/
theorem c1_vpn_connected_contains (out : String) :
    vpn_connected (SubprocOutcome.ok out) =
      Except.ok (pyContains "Connected" out) ∧
    vpn_connected (SubprocOutcome.exitNonzero out) = Except.ok false ∧
    vpn_connected SubprocOutcome.spawnError = Except.error () := by
  refine ⟨?_, rfl, rfl⟩
  simp only [vpn_connected, run, pyContains_pyStrip]

/-- C2: when the precondition probe reports not-connected, `connect_vpn`
prompts for the password and writes to the interactive `[vpn_exec, "-s"]`
subprocess exactly the six newline-terminated lines `connect <host>`,
`<username>`, `<password>`, `<method>`, `y`, `exit` (in that order, as the
split of the transcript at newlines shows, provided no field itself
contains a newline); it then re-probes and returns `True` iff now
connected, otherwise it prints the connection error and exits 1. -/
theorem c2_connect_transcript (vpn_exec host username method : String)
    (w : SessionWorld) (c : Bool)
    (hh : ∀ x ∈ host.data, x ≠ '\n') (hu : ∀ x ∈ username.data, x ≠ '\n')
    (hp : ∀ x ∈ w.password.data, x ≠ '\n') (hm : ∀ x ∈ method.data, x ≠ '\n')
    (h1 : vpn_connected w.status1 = Except.ok false)
    (h2 : vpn_connected w.status2 = Except.ok c) :
    (connect_vpn vpn_exec host username method w).spawns =
      [SpawnRec.statusProbe vpn_exec,
       SpawnRec.interactive vpn_exec
         (connectScript host username w.password method),
       SpawnRec.statusProbe vpn_exec] ∧
    (connect_vpn vpn_exec host username method w).promptedPassword = true ∧
    splitNL (connectScript host username w.password method).data =
      [("connect " ++ host).data, username.data, w.password.data, method.data,
       "y".data, "exit".data, []] ∧
    (c = true →
      (connect_vpn vpn_exec host username method w).outcome =
        POutcome.ret true) ∧
    (c = false →
      (connect_vpn vpn_exec host username method w).outcome =
        POutcome.exited 1 ∧
      (connect_vpn vpn_exec host username method w).stderrLines =
        ["Error: VPN connection failed."]) := by
  have hch : ∀ x ∈ ("connect " ++ host).data, x ≠ '\n' := by
    intro x hx
    rw [string_data_app, List.mem_append] at hx
    rcases hx with hx | hx
    · revert hx
      have : ∀ x ∈ "connect ".data, x ≠ '\n' := by decide
      exact this x
    · exact hh x hx
  have hscript : (connectScript host username w.password method).data =
      ("connect " ++ host).data ++ '\n' :: (username.data ++ '\n' ::
        (w.password.data ++ '\n' :: (method.data ++ '\n' ::
          ('y' :: '\n' :: ('e' :: 'x' :: 'i' :: 't' :: '\n' :: []))))) := by
    simp only [connectScript, string_data_app, List.append_assoc]
    rfl
  have hsplit : splitNL (connectScript host username w.password method).data =
      [("connect " ++ host).data, username.data, w.password.data, method.data,
       "y".data, "exit".data, []] := by
    rw [hscript]
    exact splitNL_six _ _ _ _ hch hu hp hm
  have hcv : connect_vpn vpn_exec host username method w =
      ⟨[SpawnRec.statusProbe vpn_exec,
        SpawnRec.interactive vpn_exec
          (connectScript host username w.password method),
        SpawnRec.statusProbe vpn_exec], true,
       if c then [] else ["Error: VPN connection failed."],
       if c then POutcome.ret true else POutcome.exited 1⟩ := by
    unfold connect_vpn
    rw [h1, h2]
    cases c
    · rfl
    · rfl
  refine ⟨by rw [hcv], by rw [hcv], hsplit, ?_, ?_⟩
  · intro hc
    subst hc
    rw [hcv]
    rfl
  · intro hc
    subst hc
    rw [hcv]
    exact ⟨rfl, rfl⟩

/-- C2, witness. -/
theorem c2_witness :
    (connect_vpn "/usr/bin/vpn" "vpn.example.com" "alice" "push"
      ⟨SubprocOutcome.ok "state: Disconnected",
       SubprocOutcome.ok "state: Connected", "hunter2"⟩).outcome =
      POutcome.ret true ∧
    splitNL (connectScript "vpn.example.com" "alice" "hunter2" "push").data =
      [("connect " ++ "vpn.example.com").data, "alice".data, "hunter2".data,
       "push".data, "y".data, "exit".data, []] := by
  have h := c2_connect_transcript "/usr/bin/vpn" "vpn.example.com" "alice"
    "push"
    ⟨SubprocOutcome.ok "state: Disconnected",
     SubprocOutcome.ok "state: Connected", "hunter2"⟩
    true (by decide) (by decide) (by decide) (by decide) rfl rfl
  exact ⟨h.2.2.2.1 rfl, h.2.2.1⟩

/-- C3: `disconnect_vpn` requires the current state to be connected: when
the precondition probe reports not-connected it prints the error and exits
1 without spawning the interactive subprocess (so no transcript is
written); otherwise it writes exactly the two-line transcript
`disconnect`, `exit` to the interactive `[vpn_exec, "-s"]` subprocess and
returns `True` iff the re-probe reports not-connected, else prints the
disconnection error and exits 1. -/
theorem c3_disconnect_transcript (vpn_exec : String) (w : SessionWorld) :
    (vpn_connected w.status1 = Except.ok false →
      disconnect_vpn vpn_exec w =
        ⟨[SpawnRec.statusProbe vpn_exec], false,
         ["Error: VPN is not connected."], POutcome.exited 1⟩) ∧
    splitNL disconnectScript.data =
      ["disconnect".data, "exit".data, []] ∧
    (vpn_connected w.status1 = Except.ok true →
      ∀ c, vpn_connected w.status2 = Except.ok c →
        (disconnect_vpn vpn_exec w).spawns =
          [SpawnRec.statusProbe vpn_exec,
           SpawnRec.interactive vpn_exec disconnectScript,
           SpawnRec.statusProbe vpn_exec] ∧
        (c = false →
          (disconnect_vpn vpn_exec w).outcome = POutcome.ret true) ∧
        (c = true →
          (disconnect_vpn vpn_exec w).outcome = POutcome.exited 1 ∧
          (disconnect_vpn vpn_exec w).stderrLines =
            ["Error: VPN disconnection failed."])) := by
  refine ⟨?_, by decide, ?_⟩
  · intro h1
    unfold disconnect_vpn
    rw [h1]
  · intro h1 c h2
    have hcv : disconnect_vpn vpn_exec w =
        ⟨[SpawnRec.statusProbe vpn_exec,
          SpawnRec.interactive vpn_exec disconnectScript,
          SpawnRec.statusProbe vpn_exec], false,
         if c then ["Error: VPN disconnection failed."] else [],
         if c then POutcome.exited 1 else POutcome.ret true⟩ := by
      unfold disconnect_vpn
      rw [h1, h2]
      cases c
      · rfl
      · rfl
    refine ⟨by rw [hcv], ?_, ?_⟩
    · intro hc
      subst hc
      rw [hcv]
      rfl
    · intro hc
      subst hc
      rw [hcv]
      exact ⟨rfl, rfl⟩

/-- C3, witness. -/
theorem c3_witness :
    (disconnect_vpn "/usr/bin/vpn"
      ⟨SubprocOutcome.ok "state: Connected",
       SubprocOutcome.ok "state: Disconnected", ""⟩).outcome =
      POutcome.ret true := by
  have h := c3_disconnect_transcript "/usr/bin/vpn"
    ⟨SubprocOutcome.ok "state: Connected",
     SubprocOutcome.ok "state: Disconnected", ""⟩
  exact (h.2.2 rfl false rfl).2.1 rfl

/-- C4: macOS, Linux and Windows each have a distinct non-empty ordered
candidate list and every other platform the empty list, and the locator
succeeds with `p` exactly when `p` is the first candidate, in list order,
that exists and is executable. -/
theorem c4_locator_first_candidate (fs : FS) (osType : String) (p : String) :
    (candidates "Darwin" ≠ [] ∧ candidates "Linux" ≠ [] ∧
     candidates "Windows" ≠ [] ∧
     candidates "Darwin" ≠ candidates "Linux" ∧
     candidates "Darwin" ≠ candidates "Windows" ∧
     candidates "Linux" ≠ candidates "Windows" ∧
     (osType ≠ "Darwin" → osType ≠ "Linux" → osType ≠ "Windows" →
       candidates osType = [])) ∧
    (find_vpn_exec fs osType = Except.ok p ↔
      ∃ pre post, candidates osType = pre ++ p :: post ∧
        goodExec fs p = true ∧ ∀ q ∈ pre, goodExec fs q = false) := by
  constructor
  · refine ⟨by decide, by decide, by decide, by decide, by decide, by decide,
      ?_⟩
    intro h1 h2 h3
    unfold candidates
    rw [if_neg h1, if_neg h2, if_neg h3]
  · rw [← find?_first_iff]
    unfold find_vpn_exec
    cases hf : (candidates osType).find? (goodExec fs) with
    | none => simp [hf]
    | some q => simp [hf, eq_comm]

/-- C4, witness: on Linux with only `/usr/local/bin/vpn` present and
executable, the locator returns it (the two candidates before it fail the
test). -/
theorem c4_witness :
    find_vpn_exec
      ⟨fun s => s == "/usr/local/bin/vpn", fun s => s == "/usr/local/bin/vpn",
       fun _ => none⟩ "Linux" = Except.ok "/usr/local/bin/vpn" :=
  (c4_locator_first_candidate
    ⟨fun s => s == "/usr/local/bin/vpn", fun s => s == "/usr/local/bin/vpn",
     fun _ => none⟩ "Linux" "/usr/local/bin/vpn").2.mpr
    ⟨["/opt/cisco/secureclient/bin/vpn", "/opt/cisco/anyconnect/bin/vpn"],
     ["/usr/bin/vpn"], by decide, by decide, by decide⟩

/-- C5: the claim says the locator falls back to a PATH search for `vpn`
and `vpncli` and otherwise fails with a `FileNotFoundError` reported as a
one-line message before exit 1.  In fact `shutil` is never imported, so
when no candidate path qualifies the locator raises `NameError`, which
`main` does not catch (it catches only `FileNotFoundError`): the PATH is
never searched, no one-line message is printed, and the process dies with
a traceback.  Evaluated here at a world whose filesystem has no usable
candidate. -/
theorem c5_fallback_raises_name_error :
    find_vpn_exec ⟨fun _ => false, fun _ => false, fun _ => none⟩ "Linux" =
      Except.error LocErr.nameError ∧
    main Cmd.status none "" "" none
      ⟨fun _ => none, ⟨fun _ => false, fun _ => false, fun _ => none⟩,
       "Linux", ⟨.ok "", .ok "", ""⟩⟩ =
      ⟨[], [], [], MOutcome.raised⟩ :=
  ⟨rfl, rfl⟩

/-- C6, counterexample: the claim says omitting `--vpn-exec` falls back to
the environment variable `VPN_EXEC` and omitting `--vpn-host` to
`VPN_HOST`.  Here the environment carries both variables, yet the resolved
executable is the located candidate (not `/custom/vpn`), and the omitted
host aborts argument parsing instead of falling back. -/
theorem c6_env_vars_not_read :
    (fun k => if k = "VPN_EXEC" then some "/custom/vpn"
              else if k = "VPN_HOST" then some "vpn.example.com"
              else none : Env) "VPN_EXEC" = some "/custom/vpn" ∧
    resolveVpnExec
      (fun k => if k = "VPN_EXEC" then some "/custom/vpn"
                else if k = "VPN_HOST" then some "vpn.example.com"
                else none)
      ⟨fun s => s == "/opt/cisco/secureclient/bin/vpn",
       fun s => s == "/opt/cisco/secureclient/bin/vpn", fun _ => none⟩
      "Darwin" none = Except.ok "/opt/cisco/secureclient/bin/vpn" ∧
    (Except.ok "/opt/cisco/secureclient/bin/vpn" : Except LocErr String) ≠
      Except.ok "/custom/vpn" ∧
    (fun k => if k = "VPN_EXEC" then some "/custom/vpn"
              else if k = "VPN_HOST" then some "vpn.example.com"
              else none : Env) "VPN_HOST" = some "vpn.example.com" ∧
    resolveVpnHost
      (fun k => if k = "VPN_EXEC" then some "/custom/vpn"
                else if k = "VPN_HOST" then some "vpn.example.com"
                else none)
      none = Except.error ArgErr.usageExit := by
  refine ⟨rfl, rfl, ?_, rfl, rfl⟩
  intro h
  injection h with h'
  exact absurd h' (by decide)

/-- C6 (amended): only `VPN_METHOD` is read.  For `connect`, omitting
`--method` falls back to `VPN_METHOD` and then to `"push"`; omitting
`--vpn-exec` falls back to the platform locator, independently of the
environment (no `VPN_EXEC` fallback); `--vpn-host` is required and its
omission aborts argument parsing (no `VPN_HOST` fallback). -/
theorem c6_only_vpn_method_read (env env2 : Env) (fs : FS) (osType : String)
    (cli : Option String) (m h : String) :
    resolveMethod env none = (env "VPN_METHOD").getD "push" ∧
    resolveMethod env (some m) = m ∧
    resolveVpnExec env fs osType cli = resolveVpnExec env2 fs osType cli ∧
    resolveVpnExec env fs osType none = find_vpn_exec fs osType ∧
    resolveVpnHost env (some h) = Except.ok h ∧
    resolveVpnHost env none = Except.error ArgErr.usageExit :=
  ⟨rfl, rfl, rfl, rfl, rfl, rfl⟩

/-- C7: when the precondition status probe reports already-connected,
`connect_vpn` prints the error and exits 1 without prompting for a password
and without spawning the interactive session subprocess (the only spawn is
the probe itself, so the external connection state is untouched). -/
theorem c7_already_connected_refuses (vpn_exec host username method : String)
    (w : SessionWorld) (h1 : vpn_connected w.status1 = Except.ok true) :
    connect_vpn vpn_exec host username method w =
      ⟨[SpawnRec.statusProbe vpn_exec], false,
       ["Error: VPN is already connected."], POutcome.exited 1⟩ := by
  unfold connect_vpn
  rw [h1]

/-- C7, witness. -/
theorem c7_witness :
    connect_vpn "/usr/bin/vpn" "vpn.example.com" "alice" "push"
      ⟨SubprocOutcome.ok "state: Connected", SubprocOutcome.ok "", ""⟩ =
      ⟨[SpawnRec.statusProbe "/usr/bin/vpn"], false,
       ["Error: VPN is already connected."], POutcome.exited 1⟩ :=
  c7_already_connected_refuses "/usr/bin/vpn" "vpn.example.com" "alice" "push"
    ⟨SubprocOutcome.ok "state: Connected", SubprocOutcome.ok "", ""⟩ rfl

/-- C9, counterexample: the claim says the status subcommand prints one
`VPN Connected:` line and exits 0 for every probe outcome.  When spawning
the probe fails (e.g. `--vpn-exec` names a nonexistent file, so the path
was "resolved" yet cannot be executed), the uncaught `FileNotFoundError`
ends the process with status 1 and no status line is printed. -/
theorem c9_spawn_error_raises :
    status_cmd "/nonexistent/vpn" SubprocOutcome.spawnError =
      ⟨[SpawnRec.statusProbe "/nonexistent/vpn"], [], [], MOutcome.raised⟩ ∧
    osExitCode MOutcome.raised = 1 ∧
    main Cmd.status (some "/nonexistent/vpn") "" "" none
      ⟨fun _ => none, ⟨fun _ => false, fun _ => false, fun _ => none⟩,
       "Linux", ⟨SubprocOutcome.spawnError, SubprocOutcome.ok "", ""⟩⟩ =
      ⟨[SpawnRec.statusProbe "/nonexistent/vpn"], [], [], MOutcome.raised⟩ :=
  ⟨rfl, rfl, rfl⟩

/-- C9 (amended): whenever the status probe subprocess actually spawns, the
status subcommand prints exactly one line — `VPN Connected: Yes` iff the
captured output contains `"Connected"`, and `VPN Connected: No` otherwise,
including on a non-zero exit — and completes with exit code 0; a spawn
error instead propagates as an uncaught exception (exit code 1, no status
line). -/
theorem c9_status_line (vpn_exec out : String) :
    status_cmd vpn_exec (SubprocOutcome.ok out) =
      ⟨[SpawnRec.statusProbe vpn_exec],
       ["VPN Connected: " ++ (if pyContains "Connected" out then "Yes" else "No")],
       [], MOutcome.completed⟩ ∧
    status_cmd vpn_exec (SubprocOutcome.exitNonzero out) =
      ⟨[SpawnRec.statusProbe vpn_exec], ["VPN Connected: No"], [],
       MOutcome.completed⟩ ∧
    status_cmd vpn_exec SubprocOutcome.spawnError =
      ⟨[SpawnRec.statusProbe vpn_exec], [], [], MOutcome.raised⟩ ∧
    osExitCode MOutcome.completed = 0 ∧ osExitCode MOutcome.raised = 1 := by
  refine ⟨?_, rfl, rfl, rfl, rfl⟩
  simp only [status_cmd, vpn_connected, run, pyContains_pyStrip]

/-- C8: the process exits 0 on success and 1 on every detected failure.
When the executable cannot be resolved (either locator error), the exit
status is 1 and no subprocess is spawned.  With a resolved executable:
connect exits 1 when already connected, 0 when the post-transcript probe
reports connected and 1 when it does not; disconnect exits 1 when not
connected, 0 when the re-probe reports disconnected and 1 when it does
not; status exits 0 whenever its probe returns. -/
theorem c8_exit_codes (cmd : Cmd) (cliExec : Option String)
    (host username : String) (cliMethod : Option String) (w : World) :
    (∀ e, resolveVpnExec w.env w.fs w.osType cliExec = Except.error e →
      osExitCode (main cmd cliExec host username cliMethod w).outcome = 1 ∧
      (main cmd cliExec host username cliMethod w).spawns = []) ∧
    (∀ ex, resolveVpnExec w.env w.fs w.osType cliExec = Except.ok ex →
      (cmd = Cmd.connect →
        (vpn_connected w.session.status1 = Except.ok true →
          osExitCode (main cmd cliExec host username cliMethod w).outcome =
            1) ∧
        (vpn_connected w.session.status1 = Except.ok false →
          ∀ c, vpn_connected w.session.status2 = Except.ok c →
            osExitCode (main cmd cliExec host username cliMethod w).outcome =
              if c then 0 else 1)) ∧
      (cmd = Cmd.disconnect →
        (vpn_connected w.session.status1 = Except.ok false →
          osExitCode (main cmd cliExec host username cliMethod w).outcome =
            1) ∧
        (vpn_connected w.session.status1 = Except.ok true →
          ∀ c, vpn_connected w.session.status2 = Except.ok c →
            osExitCode (main cmd cliExec host username cliMethod w).outcome =
              if c then 1 else 0)) ∧
      (cmd = Cmd.status →
        ∀ b, vpn_connected w.session.status1 = Except.ok b →
          osExitCode (main cmd cliExec host username cliMethod w).outcome =
            0)) := by
  constructor
  · intro e he
    cases e
    · exact ⟨by simp [main, he, osExitCode], by simp [main, he]⟩
    · exact ⟨by simp [main, he, osExitCode], by simp [main, he]⟩
  · intro ex hex
    refine ⟨?_, ?_, ?_⟩
    · rintro rfl
      constructor
      · intro h1
        simp [main, hex, connect_vpn, h1, liftOp, osExitCode]
      · intro h1 c h2
        cases c
        · simp [main, hex, connect_vpn, h1, h2, liftOp, osExitCode]
        · simp [main, hex, connect_vpn, h1, h2, liftOp, osExitCode]
    · rintro rfl
      constructor
      · intro h1
        simp [main, hex, disconnect_vpn, h1, liftOp, osExitCode]
      · intro h1 c h2
        cases c
        · simp [main, hex, disconnect_vpn, h1, h2, liftOp, osExitCode]
        · simp [main, hex, disconnect_vpn, h1, h2, liftOp, osExitCode]
    · rintro rfl
      intro b h1
      simp [main, hex, status_cmd, h1, osExitCode]

/-- C8, witness: on an unsupported platform with nothing on disk the
executable cannot be resolved; the invocation exits 1 having spawned no
subprocess. -/
theorem c8_witness :
    osExitCode (main Cmd.disconnect none "" "" none
      ⟨fun _ => none, ⟨fun _ => false, fun _ => false, fun _ => none⟩,
       "Plan9", ⟨SubprocOutcome.ok "", SubprocOutcome.ok "", ""⟩⟩).outcome =
      1 ∧
    (main Cmd.disconnect none "" "" none
      ⟨fun _ => none, ⟨fun _ => false, fun _ => false, fun _ => none⟩,
       "Plan9", ⟨SubprocOutcome.ok "", SubprocOutcome.ok "", ""⟩⟩).spawns =
      [] :=
  (c8_exit_codes Cmd.disconnect none "" "" none
    ⟨fun _ => none, ⟨fun _ => false, fun _ => false, fun _ => none⟩,
     "Plan9", ⟨SubprocOutcome.ok "", SubprocOutcome.ok "", ""⟩⟩).1
    LocErr.nameError rfl

/-- C10: on every path on which `connect_vpn` or `disconnect_vpn` returns
at all, it returns `True` (every failure path exits or raises instead), so
the dispatcher's `failed` result wording is unreachable: no invocation ever
prints `VPN connection failed` or `VPN disconnection failed`. -/
theorem c10_returns_mean_success (vpn_exec host username method : String)
    (w : SessionWorld) :
    (∀ b, (connect_vpn vpn_exec host username method w).outcome =
        POutcome.ret b → b = true) ∧
    (∀ b, (disconnect_vpn vpn_exec w).outcome = POutcome.ret b → b = true) ∧
    (∀ (cmd : Cmd) (cliExec : Option String) (h u : String)
        (cm : Option String) (w' : World),
      ((main cmd cliExec h u cm w').stdoutLines.contains
        "VPN connection failed") = false ∧
      ((main cmd cliExec h u cm w').stdoutLines.contains
        "VPN disconnection failed") = false) := by
  refine ⟨?_, ?_, ?_⟩
  · intro b hb
    cases b
    · exfalso
      rcases hc1 : vpn_connected w.status1 with e1 | b1
      · simp [connect_vpn, hc1] at hb
      · cases b1
        · rcases hc2 : vpn_connected w.status2 with e2 | b2
          · simp [connect_vpn, hc1, hc2] at hb
          · cases b2
            · simp [connect_vpn, hc1, hc2] at hb
            · simp [connect_vpn, hc1, hc2] at hb
        · simp [connect_vpn, hc1] at hb
    · rfl
  · intro b hb
    cases b
    · exfalso
      rcases hc1 : vpn_connected w.status1 with e1 | b1
      · simp [disconnect_vpn, hc1] at hb
      · cases b1
        · simp [disconnect_vpn, hc1] at hb
        · rcases hc2 : vpn_connected w.status2 with e2 | b2
          · simp [disconnect_vpn, hc1, hc2] at hb
          · cases b2
            · simp [disconnect_vpn, hc1, hc2] at hb
            · simp [disconnect_vpn, hc1, hc2] at hb
    · rfl
  · intro cmd cliExec h u cm w'
    rcases hre : resolveVpnExec w'.env w'.fs w'.osType cliExec with e | ex
    · cases e
      · simp [main, hre]
      · simp [main, hre]
    · cases cmd
      case connect =>
        rcases hc1 : vpn_connected w'.session.status1 with e1 | b1
        · simp [main, hre, connect_vpn, hc1, liftOp]
        · cases b1
          · rcases hc2 : vpn_connected w'.session.status2 with e2 | b2
            · simp [main, hre, connect_vpn, hc1, hc2, liftOp]
            · cases b2
              · simp [main, hre, connect_vpn, hc1, hc2, liftOp]
              · simp only [main, hre, connect_vpn, hc1, hc2, liftOp]
                decide
          · simp [main, hre, connect_vpn, hc1, liftOp]
      case disconnect =>
        rcases hc1 : vpn_connected w'.session.status1 with e1 | b1
        · simp [main, hre, disconnect_vpn, hc1, liftOp]
        · cases b1
          · simp [main, hre, disconnect_vpn, hc1, liftOp]
          · rcases hc2 : vpn_connected w'.session.status2 with e2 | b2
            · simp [main, hre, disconnect_vpn, hc1, hc2, liftOp]
            · cases b2
              · simp only [main, hre, disconnect_vpn, hc1, hc2, liftOp]
                decide
              · simp [main, hre, disconnect_vpn, hc1, hc2, liftOp]
      case status =>
        rcases hc1 : vpn_connected w'.session.status1 with e1 | b1
        · simp [main, hre, status_cmd, hc1]
        · cases b1
          · simp only [main, hre, status_cmd, hc1]
            decide
          · simp only [main, hre, status_cmd, hc1]
            decide
      case unspecified => simp [main, hre]

/-- C10, witness. -/
theorem c10_witness :
    (true : Bool) = true ∧
    ((main Cmd.connect (some "/usr/bin/vpn") "vpn.example.com" "alice"
        (some "push")
        ⟨fun _ => none, ⟨fun _ => false, fun _ => false, fun _ => none⟩,
         "Linux",
         ⟨SubprocOutcome.ok "", SubprocOutcome.ok "Connected",
          ""⟩⟩).stdoutLines.contains "VPN connection failed") = false :=
  ⟨(c10_returns_mean_success "/usr/bin/vpn" "vpn.example.com" "alice" "push"
      ⟨SubprocOutcome.ok "", SubprocOutcome.ok "Connected", ""⟩).1 true rfl,
   ((c10_returns_mean_success "/usr/bin/vpn" "vpn.example.com" "alice" "push"
      ⟨SubprocOutcome.ok "", SubprocOutcome.ok "Connected", ""⟩).2.2
      Cmd.connect (some "/usr/bin/vpn") "vpn.example.com" "alice"
      (some "push")
      ⟨fun _ => none, ⟨fun _ => false, fun _ => false, fun _ => none⟩,
       "Linux",
       ⟨SubprocOutcome.ok "", SubprocOutcome.ok "Connected", ""⟩⟩).1⟩

end VpnCli
